import Mathlib

/-!
Shallow embedding of the feature-extraction and batch-generation core of
the Adversarial_Attacks_for_SER repository (src/utils/features.py and
src/utils/data_generator.py), together with theorems settling the frozen
claims about it.

External library collaborators that are not part of the repository
(numpy's seeded RandomState shuffle, and the `utilities` module with
`calculate_scalar` / `scale`, which is absent from src/) are modelled
explicitly; every model is marked in its doc comment.
-/

namespace SER

/-- A feature tensor, flattened to its sequence of scalar entries
(`(seq_len, mel_bins)` float matrix in the source; the generator claims
depend only on elementwise operations, so a flat list of rationals
embeds it). -/
abbrev Feature := List ℚ

/-- numpy fancy indexing `x[indexes]`: gather rows in index order.
Out-of-range indexes (impossible for indexes produced by the code paths
modelled here) default. -/
def gatherF (x : List Feature) (idx : List Nat) : List Feature :=
  idx.map (fun i => x.getD i [])

/-- numpy fancy indexing on the label array `y[indexes]`. -/
def gatherI (y : List Int) (idx : List Nat) : List Int :=
  idx.map (fun i => y.getD i 0)

/-- numpy fancy indexing on the filename array. -/
def gatherS (names : List String) (idx : List Nat) : List String :=
  idx.map (fun i => names.getD i "")

/-- Modelled from the spec: `numpy.random.RandomState(seed)` — the seeded
mutable random stream owned by one generator.  Only its determinism and
the fact that shuffling permutes are used by the claims, so the state is
a single linear-congruential word. -/
structure RandomState where
  s : Nat
deriving DecidableEq, Repr

/-- One step of the modelled pseudo-random stream. -/
def RandomState.next (st : RandomState) : RandomState × Nat :=
  let s2 := (1103515245 * st.s + 12345) % 2147483648
  (⟨s2⟩, s2)

/-- Modelled from the spec: `RandomState.shuffle` — an in-place uniform
shuffle in numpy; modelled as a deterministic seeded permutation (a
rotation by a stream-drawn amount).  The claims depend only on the
result being a permutation of the input and on determinism, never on
which permutation is drawn. -/
def npShuffle (st : RandomState) (l : List Nat) : RandomState × List Nat :=
  let (st2, k) := st.next
  (st2, l.rotate k)

/-- Modelled from the spec: `scale(x, mean, std)` from the absent
`utilities` module — "apply(x) → (x − mean) / std, applied element-wise". -/
def scale (x : Feature) (mean std : ℚ) : Feature :=
  x.map (fun v => (v - mean) / std)

/-! ## features.py: length normalization (lines 152-159)

```
if len(feature) < seq_len:
    stack_n1 = seq_len // len(feature) - 1
    stack_n2 = seq_len % len(feature)
    feature_temp = feature
    for n1 in range(0, stack_n1):
        feature = np.vstack((feature, feature_temp))
    feature = np.vstack((feature, feature_temp[0:stack_n2]))
```
-/

/-- The `for n1 in range(0, stack_n1)` loop: append `feature_temp` to the
accumulator `n` times. -/
def stackLoop {α : Type} (feature feature_temp : List α) : Nat → List α
  | 0 => feature
  | n + 1 => stackLoop (feature ++ feature_temp) feature_temp n

/-- The repeat step of `calculate_features` (features.py lines 152-159):
pad a short frame sequence to `seq_len` frames by periodic repetition;
a sequence of at least `seq_len` frames passes through unchanged. -/
def lengthNormalize {α : Type} (feature : List α) (seq_len : Nat) : List α :=
  if feature.length < seq_len then
    let stack_n1 := seq_len / feature.length - 1
    let stack_n2 := seq_len % feature.length
    stackLoop feature feature stack_n1 ++ feature.take stack_n2
  else
    feature

end SER

namespace SER

/-! ## data_generator.py: manifest resolution (lines 79-99)

```
with open(csv_file, "r") as f:
    reader = csv.reader(f, delimiter="tab")
    lis = list(reader)
audio_indexes = []
for li in lis:
    audio_name = li[0].split(",")[3]
    if audio_name in self.audio_names:
        audio_index = np.where(self.audio_names == audio_name)[0][0]
        audio_indexes.append(audio_index)
return audio_indexes
```

A manifest is embedded as its parsed rows: each row is the list of
tab-delimited columns.  `open(None)` raises a `TypeError` in Python, so
the whole resolution is `Except`-valued. -/

/-- Modelled from the spec: Python string splitting on a comma,
`s.split(",")` — empty string gives `[""]`, adjacent separators give
empty fields.  (An executable equivalent of `String.splitOn ","`,
written over the character list so concrete witnesses evaluate.) -/
def splitComma (s : String) : List String :=
  (s.data.foldr
    (fun c acc =>
      if c = ',' then [] :: acc
      else
        match acc with
        | [] => [[c]]
        | h :: t => (c :: h) :: t)
    [[]]).map String.mk

/-- Python expression `li[0].split(",")[3]`: the 4th comma-separated field of the first
tab-delimited column; an empty row or a first column with fewer than 4
comma fields raises an `IndexError`. -/
def rowAudioName (li : List String) : Except String String :=
  match li with
  | [] => Except.error "IndexError: list index out of range"
  | c :: _ =>
      match (splitComma c).get? 3 with
      | none => Except.error "IndexError: list index out of range"
      | some name => Except.ok name

/-- The `for li in lis` loop of `get_audio_indexes_from_csv`: for each
row, extract the filename; on an exact match in `audio_names`, append
the first matching index (`np.where(...)[0][0]`); on no match, skip. -/
def resolveRows (audio_names : List String) : List (List String) → Except String (List Nat)
  | [] => Except.ok []
  | li :: rest =>
      match rowAudioName li with
      | Except.error e => Except.error e
      | Except.ok name =>
          match resolveRows audio_names rest with
          | Except.error e => Except.error e
          | Except.ok tail =>
              match audio_names.findIdx? (fun s => s == name) with
              | some i => Except.ok (i :: tail)
              | none => Except.ok tail

/-- Embedding of `DataGenerator.get_audio_indexes_from_csv` (data_generator.py lines
79-99).  `csv_file = None` reaches `open(None)`, a `TypeError`: the
function body has no `None` branch, despite the constructor docstring
"if None then use all data for training". -/
def get_audio_indexes_from_csv (audio_names : List String)
    (csv_file : Option (List (List String))) : Except String (List Nat) :=
  match csv_file with
  | none => Except.error "TypeError: expected str, bytes or os.PathLike object, not NoneType"
  | some rows => resolveRows audio_names rows

/-! ## data_generator.py: DataGenerator state and construction -/

/-- The fields of a `DataGenerator` object after `__init__`
(data_generator.py lines 15-77). -/
structure DataGenerator where
  batch_size : Nat
  audio_names : List String
  x : List Feature
  y : List Int
  train_audio_indexes : List Nat
  validate_audio_indexes : List Nat
  mean : ℚ
  std : ℚ
  random_state : RandomState
  validate_random_state : RandomState
deriving DecidableEq, Repr

/-- Embedding of `DataGenerator.__init__` (data_generator.py lines 15-77).  The hdf5
load is embedded as the already-decoded parallel arrays `audio_names`,
`x`, `y`; the two manifests as parsed row lists (`Option` for an absent
path).  `calculate_scalar` comes from the absent `utilities` module and
is passed as an abstract statistics function (spec §4.4: a single mean
and a single std over every element of the selected tensors); the
claims depend only on its call site.  Seeds: `random_state` from `seed`,
`validate_random_state` from `0` (lines 28-29). -/
def DataGenerator.init (audio_names : List String) (x : List Feature) (y : List Int)
    (batch_size : Nat) (dev_train_csv dev_validate_csv : Option (List (List String)))
    (seed : Nat) (calculate_scalar : List ℚ → ℚ × ℚ) : Except String DataGenerator :=
  match get_audio_indexes_from_csv audio_names dev_train_csv with
  | Except.error e => Except.error e
  | Except.ok train_audio_indexes =>
  match get_audio_indexes_from_csv audio_names dev_validate_csv with
  | Except.error e => Except.error e
  | Except.ok validate_audio_indexes =>
  let stats := calculate_scalar (gatherF x train_audio_indexes).flatten
  Except.ok
    { batch_size := batch_size
      audio_names := audio_names
      x := x
      y := y
      train_audio_indexes := train_audio_indexes
      validate_audio_indexes := validate_audio_indexes
      mean := stats.1
      std := stats.2
      random_state := ⟨seed⟩
      validate_random_state := ⟨0⟩ }

/-- Embedding of `transform` (data_generator.py lines 203-213): scale with the stats
stored on the object. -/
def DataGenerator.transform (g : DataGenerator) (f : Feature) : Feature :=
  scale f g.mean g.std

/-! ## data_generator.py: generate_train (lines 101-136)

```
audio_indexes = np.array(self.train_audio_indexes, dtype=int)   # a copy
audios_num = len(audio_indexes)
self.random_state.shuffle(audio_indexes)
pointer = 0
while True:
    if pointer >= audios_num:
        pointer = 0
        self.random_state.shuffle(audio_indexes)
    batch_audio_indexes = audio_indexes[pointer: pointer + batch_size]
    pointer += batch_size
    ...
    yield batch_x, batch_y
```
-/

/-- The suspended state of a running `generate_train` generator: the
owning object (whose `random_state` the body keeps advancing), the local
shuffled copy of the train indexes, and the pointer. -/
structure TrainGen where
  g : DataGenerator
  idx : List Nat
  pointer : Nat
deriving DecidableEq, Repr

/-- Entering the `generate_train` body: copy the stored train index
list, shuffle the copy with `self.random_state` (advancing it), start
with pointer 0.  (In Python the body only runs at the first pull; the
claims quantify over pulled batches, so the prelude is folded into
initialization.) -/
def DataGenerator.generate_train (g : DataGenerator) : TrainGen :=
  let (rs, shuffled) := npShuffle g.random_state g.train_audio_indexes
  ⟨{ g with random_state := rs }, shuffled, 0⟩

/-- One pull from `generate_train`: reset-and-reshuffle when the pointer
has reached the end, then slice `idx[pointer : pointer+batch_size]` and
advance.  Returns the successor state and the batch index selection. -/
def TrainGen.next (t : TrainGen) : TrainGen × List Nat :=
  let (g, idx, pointer) :=
    if t.pointer ≥ t.idx.length then
      let (rs, shuffled) := npShuffle t.g.random_state t.idx
      ({ t.g with random_state := rs }, shuffled, 0)
    else
      (t.g, t.idx, t.pointer)
  let batch_audio_indexes := (idx.drop pointer).take g.batch_size
  (⟨g, idx, pointer + g.batch_size⟩, batch_audio_indexes)

/-- The generator state after `n` pulls. -/
def TrainGen.stateAfter (t : TrainGen) : Nat → TrainGen
  | 0 => t
  | n + 1 => (TrainGen.stateAfter t n).next.1

/-- The index selection of the `n`-th pull (0-based). -/
def TrainGen.selection (t : TrainGen) (n : Nat) : List Nat :=
  (t.stateAfter n).next.2

/-- The `(batch_x, batch_y)` pair yielded by the `n`-th pull:
features gathered at the selected indexes, transformed, and labels. -/
def TrainGen.batch (t : TrainGen) (n : Nat) : List Feature × List Int :=
  let s := t.stateAfter n
  let sel := t.selection n
  ((gatherF s.g.x sel).map s.g.transform, gatherI s.g.y sel)

/-! ## data_generator.py: generate_validate (lines 139-201)

```
if data_type == "train":
    audio_indexes = self.train_audio_indexes        # a reference, not a copy
elif data_type == "validate":
    audio_indexes = self.validate_audio_indexes
else:
    raise Exception("Invalid data_type!")
if shuffle:
    self.validate_random_state.shuffle(audio_indexes)   # in place
audios_num = len(audio_indexes)
iteration = 0
pointer = 0
while True:
    if iteration == max_iteration: break
    if pointer >= audios_num: break
    batch_audio_indexes = audio_indexes[pointer: pointer + batch_size]
    pointer += batch_size
    iteration += 1
    ...
    yield batch_x, batch_y, batch_audio_names
```

`generate_validate` is a Python generator function: the call itself
executes none of this body — it only builds a suspended generator
recording the arguments.  The body (the selector check included) runs
when the first batch is requested. -/

/-- The suspended generator returned by calling
`DataGenerator.generate_validate(data_type, devices, shuffle,
max_iteration)`: the call records the arguments and raises nothing
(the `devices` argument is only interpolated into a log line and is
dropped). -/
structure ValidateGenCall where
  g : DataGenerator
  data_type : String
  shuffle : Bool
  max_iteration : Option Nat
deriving DecidableEq, Repr

/-- Calling `generate_validate` (data_generator.py line 139): builds the
suspended generator.  Total — a Python generator-function call cannot
raise from its body. -/
def DataGenerator.generate_validate (g : DataGenerator) (data_type : String)
    (shuffle : Bool) (max_iteration : Option Nat) : ValidateGenCall :=
  ⟨g, data_type, shuffle, max_iteration⟩

/-- The prelude of the `generate_validate` body, run at the first pull
(lines 155-175): select the stored index list by `data_type` (raising
`Exception("Invalid data_type!")` otherwise), then, if `shuffle`, shuffle
it in place with `validate_random_state` — which mutates the stored list
on the object, since `audio_indexes` aliases it.  Returns the list the
loop iterates and the mutated object. -/
def ValidateGenCall.start (c : ValidateGenCall) : Except String (List Nat × DataGenerator) :=
  if c.data_type = "train" then
    if c.shuffle then
      let (rs, idx2) := npShuffle c.g.validate_random_state c.g.train_audio_indexes
      Except.ok (idx2, { c.g with train_audio_indexes := idx2, validate_random_state := rs })
    else
      Except.ok (c.g.train_audio_indexes, c.g)
  else if c.data_type = "validate" then
    if c.shuffle then
      let (rs, idx2) := npShuffle c.g.validate_random_state c.g.validate_audio_indexes
      Except.ok (idx2, { c.g with validate_audio_indexes := idx2, validate_random_state := rs })
    else
      Except.ok (c.g.validate_audio_indexes, c.g)
  else
    Except.error "Invalid data_type!"

/-- The `while True` loop of `generate_validate` (lines 177-201), as the
list of batch index selections it yields before breaking.  The pointer
walk over a fixed list is embedded as successive drops; `fuel` bounds
the recursion and is instantiated with the list length, enough for any
positive `batch_size`.  `max_iteration = None` never equals the integer
`iteration`, so `none` means no cap. -/
def validateLoop (batch_size : Nat) (max_iteration : Option Nat) :
    Nat → List Nat → Nat → List (List Nat)
  | 0, _, _ => []
  | fuel + 1, l, iteration =>
      if max_iteration = some iteration then []
      else if l.isEmpty then []
      else l.take batch_size ::
        validateLoop batch_size max_iteration fuel (l.drop batch_size) (iteration + 1)

/-- Running `generate_validate` to exhaustion: the sequence of batch
index selections it yields, and the object state it leaves behind. -/
def ValidateGenCall.run (c : ValidateGenCall) : Except String (List (List Nat) × DataGenerator) :=
  match c.start with
  | Except.error e => Except.error e
  | Except.ok (idx, g2) =>
      Except.ok (validateLoop c.g.batch_size c.max_iteration idx.length idx 0, g2)

/-- The `(batch_x, batch_y, batch_audio_names)` triple yielded for one
batch index selection (lines 194-201): gather, then `transform`. -/
def validateBatchOf (g : DataGenerator) (sel : List Nat) :
    List Feature × List Int × List String :=
  ((gatherF g.x sel).map g.transform, gatherI g.y sel, gatherS g.audio_names sel)

/-! ## data_generator.py: TestDataGenerator (lines 216-272) -/

/-- The fields of a `TestDataGenerator` after `__init__`: the inherited
development-generator state plus the loaded test arrays. -/
structure TestDataGenerator where
  dev : DataGenerator
  test_audio_names : List String
  test_x : List Feature
deriving DecidableEq, Repr

/-- Embedding of `TestDataGenerator.__init__` (lines 218-245): calls the parent
`__init__` on the development data with `dev_train_csv=None` and
`dev_validate_csv=None` (and the default seed 1234), then loads the test
arrays. -/
def TestDataGenerator.init (dev_audio_names : List String) (dev_x : List Feature)
    (dev_y : List Int) (test_audio_names : List String) (test_x : List Feature)
    (batch_size : Nat) (calculate_scalar : List ℚ → ℚ × ℚ) :
    Except String TestDataGenerator :=
  match DataGenerator.init dev_audio_names dev_x dev_y batch_size none none 1234 calculate_scalar with
  | Except.error e => Except.error e
  | Except.ok g => Except.ok ⟨g, test_audio_names, test_x⟩

/-- Embedding of `generate_test` (lines 247-272): sequential pointer walk over
`0..len(test_x)-1`, no shuffling, stop when the pointer passes the end;
yields `(transform(test_x[batch]), test_audio_names[batch])`.  Embedded
as the full yielded sequence; the index walk reuses the validate-mode
loop shape (same break rule, no iteration cap). -/
def TestDataGenerator.generate_test (t : TestDataGenerator) :
    List (List Feature × List String) :=
  let audio_indexes := List.range t.test_x.length
  let sels := validateLoop t.dev.batch_size none audio_indexes.length audio_indexes 0
  sels.map (fun sel =>
    ((gatherF t.test_x sel).map t.dev.transform, gatherS t.test_audio_names sel))

/-! ## Concrete fixtures for witnesses -/

/-- A concrete statistics function standing in for `calculate_scalar`
in witnesses (the claims hold for every such function). -/
def csEx : List ℚ → ℚ × ℚ := fun l => (l.headD 0, 1)

/-- A concrete 10-item development dataset state, as left by a
successful construction: indexes 0-9 all in the train split. -/
def gEx : DataGenerator :=
  ⟨4, ["a0", "a1", "a2", "a3", "a4", "a5", "a6", "a7", "a8", "a9"],
    [[1], [2], [3], [4], [5], [6], [7], [8], [9], [10]],
    [0, 1, 2, 0, 1, 2, 0, 1, 2, 0],
    [0, 1, 2, 3, 4, 5, 6, 7, 8, 9], [], 0, 1, ⟨77⟩, ⟨0⟩⟩

/-- A second state agreeing with `gEx` exactly on the fields train-mode
selection may read (train indexes, batch size, train random stream) and
differing everywhere else. -/
def gEx2 : DataGenerator :=
  ⟨4, ["b0", "b1", "b2", "b3", "b4", "b5", "b6", "b7", "b8", "b9"],
    [[5], [5], [5], [5], [5], [5], [5], [5], [5], [5]],
    [1, 1, 1, 1, 1, 1, 1, 1, 1, 1],
    [0, 1, 2, 3, 4, 5, 6, 7, 8, 9], [2, 3], 9, 3, ⟨77⟩, ⟨123⟩⟩

/-- A small state with a 5-item train split and a 3-item validate
split, batch size 2. -/
def gEx3 : DataGenerator :=
  ⟨2, ["a0", "a1", "a2", "a3", "a4"],
    [[1], [2], [3], [4], [5]],
    [0, 1, 2, 0, 1],
    [0, 1, 2, 3, 4], [1, 3, 4], 0, 1, ⟨5⟩, ⟨0⟩⟩

/-- A concrete manifest: rows listing a4, a0, zz (unmatched), a2. -/
def rowsEx : List (List String) :=
  [["w,x,y,a4", "meta"], ["w,x,y,a0"], ["w,x,y,zz", "m2"], ["w,x,y,a2"]]

/-- The state `gEx` is left in by running a shuffling validate-mode
pass over its train split: the stored train list is the in-place
shuffle of `[0..9]` and the validation stream has advanced. -/
def g9Ex : DataGenerator :=
  ⟨4, ["a0", "a1", "a2", "a3", "a4", "a5", "a6", "a7", "a8", "a9"],
    [[1], [2], [3], [4], [5], [6], [7], [8], [9], [10]],
    [0, 1, 2, 0, 1, 2, 0, 1, 2, 0],
    [5, 6, 7, 8, 9, 0, 1, 2, 3, 4], [], 0, 1, ⟨77⟩, ⟨12345⟩⟩

/-- The state built by `DataGenerator.init` from a two-item development
dataset with train manifest listing a1 and validation manifest listing
a0, seed 3 and the statistics function `csEx`. -/
def g6Ex : DataGenerator :=
  ⟨2, ["a0", "a1"], [[1], [2]], [0, 1], [1], [0], 2, 1, ⟨3⟩, ⟨0⟩⟩

/-- Every field of a `DataGenerator` except `random_state` (the only
field the train-mode generator body writes). -/
def DataGenerator.core (g : DataGenerator) :
    Nat × List String × List Feature × List Int × List Nat × List Nat × ℚ × ℚ × RandomState :=
  (g.batch_size, g.audio_names, g.x, g.y, g.train_audio_indexes,
    g.validate_audio_indexes, g.mean, g.std, g.validate_random_state)

end SER

namespace SER

theorem stackLoop_eq {α : Type} (t : List α) :
    ∀ (n : Nat) (f : List α), stackLoop f t n = f ++ (List.replicate n t).flatten := by
  intro n
  induction n with
  | zero => intro f; simp [stackLoop]
  | succ m ih =>
      intro f
      rw [stackLoop, ih]
      simp [List.replicate_succ, List.append_assoc]

theorem length_lengthNormalize {α : Type} (f : List α) (t : Nat)
    (hne : f ≠ []) (hlt : f.length < t) :
    (lengthNormalize f t).length = t := by
  have hL : 0 < f.length := List.length_pos.mpr hne
  rw [lengthNormalize, if_pos hlt]
  show (stackLoop f f (t / f.length - 1) ++ List.take (t % f.length) f).length = t
  rw [stackLoop_eq]
  simp only [List.length_append, List.length_flatten, List.length_take]
  have h1 : 1 ≤ t / f.length := (Nat.one_le_div_iff hL).mpr (Nat.le_of_lt hlt)
  have hmod : t % f.length < f.length := Nat.mod_lt _ hL
  have hsum : ((List.replicate (t / f.length - 1) f).map List.length).sum
      = (t / f.length - 1) * f.length := by
    simp [List.map_replicate, List.sum_replicate, smul_eq_mul]
  rw [hsum]
  have h2 : (t / f.length - 1) * f.length = f.length * (t / f.length) - f.length := by
    rw [Nat.sub_mul, one_mul, Nat.mul_comm]
  have h3 := Nat.div_add_mod t f.length
  have h4 : f.length * 1 ≤ f.length * (t / f.length) :=
    Nat.mul_le_mul_left _ h1
  omega


theorem npShuffle_perm (st : RandomState) (l : List Nat) :
    ((npShuffle st l).2).Perm l :=
  List.rotate_perm l _

theorem npShuffle_length (st : RandomState) (l : List Nat) :
    ((npShuffle st l).2).length = l.length :=
  (npShuffle_perm st l).length_eq

theorem TrainGen.next_of_lt (t : TrainGen) (h : t.pointer < t.idx.length) :
    t.next = (⟨t.g, t.idx, t.pointer + t.g.batch_size⟩,
      (t.idx.drop t.pointer).take t.g.batch_size) := by
  unfold TrainGen.next
  rw [if_neg (Nat.not_le.mpr h)]

theorem TrainGen.next_of_ge (t : TrainGen) (h : t.idx.length ≤ t.pointer) :
    t.next = (⟨{ t.g with random_state := (npShuffle t.g.random_state t.idx).1 },
        (npShuffle t.g.random_state t.idx).2, t.g.batch_size⟩,
      ((npShuffle t.g.random_state t.idx).2).take t.g.batch_size) := by
  unfold TrainGen.next
  rw [if_pos h]
  rcases hsh : npShuffle t.g.random_state t.idx with ⟨rs, sh⟩
  simp

theorem TrainGen.stateAfter_succ (t : TrainGen) (n : Nat) :
    t.stateAfter (n + 1) = (t.stateAfter n).next.1 :=
  rfl

theorem TrainGen.selection_eq (t : TrainGen) (n : Nat) :
    t.selection n = (t.stateAfter n).next.2 :=
  rfl

theorem TrainGen.next_core (t : TrainGen) :
    t.next.1.g.core = t.g.core ∧ t.next.1.idx.length = t.idx.length := by
  by_cases h : t.idx.length ≤ t.pointer
  · rw [TrainGen.next_of_ge t h]
    refine ⟨?_, ?_⟩
    · simp [DataGenerator.core]
    · exact npShuffle_length _ _
  · rw [TrainGen.next_of_lt t (Nat.lt_of_not_le h)]
    exact ⟨rfl, rfl⟩

theorem TrainGen.stateAfter_core (t : TrainGen) (n : Nat) :
    (t.stateAfter n).g.core = t.g.core ∧ (t.stateAfter n).idx.length = t.idx.length := by
  induction n with
  | zero => exact ⟨rfl, rfl⟩
  | succ m ih =>
      rw [TrainGen.stateAfter_succ]
      exact ⟨(TrainGen.next_core _).1.trans ih.1, (TrainGen.next_core _).2.trans ih.2⟩

theorem TrainGen.stateAfter_of_noReset (t : TrainGen) (h0 : t.pointer = 0) :
    ∀ j, (∀ i, i < j → i * t.g.batch_size < t.idx.length) →
      t.stateAfter j = ⟨t.g, t.idx, j * t.g.batch_size⟩ := by
  intro j
  induction j with
  | zero =>
      intro _
      cases t
      simp_all [TrainGen.stateAfter]
  | succ m ih =>
      intro hall
      have hm := ih (fun i hi => hall i (Nat.lt_succ_of_lt hi))
      rw [TrainGen.stateAfter_succ, hm]
      have hlt : m * t.g.batch_size < t.idx.length := hall m (Nat.lt_succ_self m)
      rw [TrainGen.next_of_lt ⟨t.g, t.idx, m * t.g.batch_size⟩ hlt]
      simp [Nat.succ_mul]

theorem TrainGen.selection_of_noReset (t : TrainGen) (h0 : t.pointer = 0)
    (j : Nat) (hj : j * t.g.batch_size < t.idx.length) :
    t.selection j = (t.idx.drop (j * t.g.batch_size)).take t.g.batch_size := by
  have hall : ∀ i, i < j → i * t.g.batch_size < t.idx.length := by
    intro i hi
    exact Nat.lt_of_le_of_lt (Nat.mul_le_mul_right _ (Nat.le_of_lt hi)) hj
  rw [TrainGen.selection, TrainGen.stateAfter_of_noReset t h0 j hall,
    TrainGen.next_of_lt ⟨t.g, t.idx, j * t.g.batch_size⟩ hj]

theorem flatten_chunks (l : List Nat) (B : Nat) :
    ∀ n, ((List.range n).map (fun j => (l.drop (j * B)).take B)).flatten = l.take (n * B) := by
  intro n
  induction n with
  | zero => simp
  | succ m ih =>
      rw [List.range_succ, List.map_append, List.flatten_append, ih]
      simp only [List.map_cons, List.map_nil, List.flatten_cons, List.flatten_nil,
        List.append_nil]
      rw [Nat.succ_mul, List.take_add]



theorem validateLoop_nil (B : Nat) (mi : Option Nat) :
    ∀ (fuel it : Nat), validateLoop B mi fuel [] it = [] := by
  intro fuel it
  cases fuel with
  | zero => rfl
  | succ f => simp [validateLoop]

theorem validateLoop_count_none (B : Nat) (hB : 0 < B) :
    ∀ (fuel : Nat) (l : List Nat) (it : Nat), l.length ≤ fuel →
      (validateLoop B none fuel l it).length =
        if l.isEmpty then 0 else (l.length - 1) / B + 1 := by
  intro fuel
  induction fuel with
  | zero =>
      intro l it hf
      have hl : l = [] := List.length_eq_zero.mp (Nat.le_zero.mp hf)
      simp [hl, validateLoop_nil]
  | succ f ih =>
      intro l it hf
      by_cases hl : l.isEmpty
      · simp [validateLoop, hl]
      · have hlen : 0 < l.length := by
          cases l with
          | nil => simp at hl
          | cons a r => simp
        rw [validateLoop]
        simp only [reduceCtorEq, if_false, hl, List.length_cons]
        have hdrop : (l.drop B).length ≤ f := by
          rw [List.length_drop]
          omega
        rw [ih (l.drop B) (it + 1) hdrop]
        by_cases he : (l.drop B).isEmpty
        · have hle : l.length ≤ B := by
            have := List.isEmpty_iff.mp he
            have h2 : (l.drop B).length = 0 := by rw [this]; rfl
            rw [List.length_drop] at h2
            omega
          have hz : (l.length - 1) / B = 0 := Nat.div_eq_of_lt (by omega)
          simp [he, hz]
        · have hgt : B < l.length := by
            have h2 : (l.drop B).length ≠ 0 := by
              intro h0
              exact he (List.isEmpty_iff.mpr (List.length_eq_zero.mp h0))
            rw [List.length_drop] at h2
            omega
          have h3 : l.length - 1 = (l.drop B).length - 1 + B := by
            rw [List.length_drop]
            omega
          rw [if_neg (by simpa using he), h3, Nat.add_div_right _ hB]
        
theorem validateLoop_count_cap (B m : Nat) :
    ∀ (fuel : Nat) (l : List Nat) (it : Nat), it ≤ m →
      (validateLoop B (some m) fuel l it).length ≤ m - it := by
  intro fuel
  induction fuel with
  | zero => intro l it _; simp [validateLoop]
  | succ f ih =>
      intro l it hit
      rw [validateLoop]
      by_cases hm : m = it
      · simp [hm]
      · rw [if_neg (by simp; omega)]
        by_cases hl : l.isEmpty
        · simp [hl]
        · rw [if_neg hl]
          have hlt : it < m := Nat.lt_of_le_of_ne hit (fun h => hm h.symm)
          have := ih (l.drop B) (it + 1) hlt
          simp only [List.length_cons]
          omega

theorem validateLoop_flatten_none (B : Nat) (hB : 0 < B) :
    ∀ (fuel : Nat) (l : List Nat) (it : Nat), l.length ≤ fuel →
      (validateLoop B none fuel l it).flatten = l := by
  intro fuel
  induction fuel with
  | zero =>
      intro l it hf
      have hl : l = [] := List.length_eq_zero.mp (Nat.le_zero.mp hf)
      simp [hl, validateLoop_nil]
  | succ f ih =>
      intro l it hf
      by_cases hl : l.isEmpty
      · have : l = [] := List.isEmpty_iff.mp hl
        simp [this, validateLoop_nil]
      · rw [validateLoop]
        simp only [reduceCtorEq, if_false, hl, List.flatten_cons]
        have hdrop : (l.drop B).length ≤ f := by
          have hlen : 0 < l.length := by
            cases l with
            | nil => simp at hl
            | cons a r => simp
          rw [List.length_drop]
          omega
        rw [ih (l.drop B) (it + 1) hdrop]
        exact List.take_append_drop B l

theorem validateLoop_getLast_none (B : Nat) (hB : 0 < B) :
    ∀ (fuel : Nat) (l : List Nat) (it : Nat), l.length ≤ fuel → l ≠ [] →
      (validateLoop B none fuel l it).getLast? =
        some ((l.drop (B * ((l.length - 1) / B))).take B) := by
  intro fuel
  induction fuel with
  | zero =>
      intro l it hf hne
      exact absurd (List.length_eq_zero.mp (Nat.le_zero.mp hf)) hne
  | succ f ih =>
      intro l it hf hne
      have hl : ¬ l.isEmpty := by simpa using hne
      have hlen : 0 < l.length := List.length_pos.mpr hne
      rw [validateLoop]
      simp only [reduceCtorEq, if_false, hl]
      by_cases he : l.drop B = []
      · have hle : l.length ≤ B := by
          have h2 : (l.drop B).length = 0 := by rw [he]; rfl
          rw [List.length_drop] at h2
          omega
        have hz : (l.length - 1) / B = 0 := Nat.div_eq_of_lt (by omega)
        rw [he, validateLoop_nil, hz]
        simp
      · have hgt : B < l.length := by
          have h2 : (l.drop B).length ≠ 0 := fun h0 => he (List.length_eq_zero.mp h0)
          rw [List.length_drop] at h2
          omega
        have hdrop : (l.drop B).length ≤ f := by
          rw [List.length_drop]
          omega
        have hrec := ih (l.drop B) (it + 1) hdrop he
        have hq : (l.length - 1) / B = ((l.drop B).length - 1) / B + 1 := by
          have h3 : l.length - 1 = ((l.drop B).length - 1) + B := by
            rw [List.length_drop]
            omega
          rw [h3, Nat.add_div_right _ hB]
        rcases hrest : validateLoop B none f (l.drop B) (it + 1) with _ | ⟨b, rest⟩
        · rw [hrest] at hrec
          simp at hrec
        · rw [hrest] at hrec
          rw [List.getLast?_cons_cons]
          rw [hrec]
          rw [List.drop_drop, hq, Nat.mul_add, Nat.mul_one, Nat.add_comm]



theorem findIdx?_first (names : List String) (name : String) (i : Nat)
    (h : names.findIdx? (fun s => s == name) = some i) :
    i < names.length ∧ names.getD i "" = name ∧
      ∀ j, j < i → names.getD j "" ≠ name := by
  rw [List.findIdx?_eq_some_iff_findIdx_eq] at h
  obtain ⟨hlen, hidx⟩ := h
  rw [List.findIdx_eq hlen] at hidx
  obtain ⟨hp, hprev⟩ := hidx
  refine ⟨hlen, ?_, ?_⟩
  · rw [List.getD_eq_getElem names "" hlen]
    exact eq_of_beq hp
  · intro j hj hcontra
    have hjlen : j < names.length := Nat.lt_trans hj hlen
    have := hprev j hj
    rw [List.getD_eq_getElem names "" hjlen] at hcontra
    rw [hcontra] at this
    simp at this

theorem rowAudioName_ok (c : String) (r : List String)
    (h : 4 ≤ (splitComma c).length) :
    rowAudioName (c :: r) = Except.ok ((splitComma c).getD 3 "") := by
  rw [rowAudioName]
  rcases hget : (splitComma c).get? 3 with _ | v
  · rw [List.get?_eq_none] at hget
    omega
  · have : (splitComma c).getD 3 "" = v := by
      rw [List.getD_eq_getElem?_getD, ← List.get?_eq_getElem?, hget]
      rfl
    rw [this]

theorem resolveRows_ok (names : List String) :
    ∀ rows : List (List String),
      (∀ li ∈ rows, li ≠ [] ∧ 4 ≤ (splitComma (li.headD "")).length) →
      resolveRows names rows = Except.ok (rows.filterMap
        (fun li => names.findIdx? (fun s => s == (splitComma (li.headD "")).getD 3 ""))) := by
  intro rows
  induction rows with
  | nil => intro _; rfl
  | cons li rest ih =>
      intro hwf
      obtain ⟨hne, hfields⟩ := hwf li (List.mem_cons_self li rest)
      rcases li with _ | ⟨c, r⟩
      · exact absurd rfl hne
      · have hname := rowAudioName_ok c r (by simpa using hfields)
        have hrest := ih (fun l hl => hwf l (List.mem_cons_of_mem (c :: r) hl))
        rw [resolveRows, hname, hrest]
        simp only [List.headD_cons, List.getD_eq_getElem?_getD, List.filterMap_cons]
        rcases hf : List.findIdx? (fun s => s == (splitComma c)[3]?.getD "") names with _ | i
        · simp [hf]
        · simp [hf]

theorem init_ok_iff (names : List String) (x : List Feature) (y : List Int)
    (bs : Nat) (tr v : Option (List (List String))) (seed : Nat)
    (cs : List ℚ → ℚ × ℚ) (g : DataGenerator) :
    DataGenerator.init names x y bs tr v seed cs = Except.ok g ↔
      ∃ ti vi, get_audio_indexes_from_csv names tr = Except.ok ti ∧
        get_audio_indexes_from_csv names v = Except.ok vi ∧
        g = ⟨bs, names, x, y, ti, vi, (cs (gatherF x ti).flatten).1,
          (cs (gatherF x ti).flatten).2, ⟨seed⟩, ⟨0⟩⟩ := by
  rw [DataGenerator.init]
  rcases ht : get_audio_indexes_from_csv names tr with e | ti
  · simp [ht]
  · rcases hv : get_audio_indexes_from_csv names v with e | vi
    · simp [ht, hv]
    · constructor
      · intro h
        exact ⟨ti, vi, rfl, rfl, (Except.ok.inj h).symm⟩
      · rintro ⟨ti2, vi2, hti, hvi, hg⟩
        rw [Except.ok.injEq] at hti hvi
        subst hti
        subst hvi
        rw [hg]



theorem start_train_shuffle (g : DataGenerator) (mi : Option Nat) :
    (g.generate_validate "train" true mi).start =
      Except.ok ((npShuffle g.validate_random_state g.train_audio_indexes).2,
        { g with
            train_audio_indexes := (npShuffle g.validate_random_state g.train_audio_indexes).2,
            validate_random_state := (npShuffle g.validate_random_state g.train_audio_indexes).1 }) := by
  rcases hsh : npShuffle g.validate_random_state g.train_audio_indexes with ⟨rs, sh⟩
  simp [DataGenerator.generate_validate, ValidateGenCall.start, hsh]

theorem start_train_noshuffle (g : DataGenerator) (mi : Option Nat) :
    (g.generate_validate "train" false mi).start =
      Except.ok (g.train_audio_indexes, g) := by
  simp [DataGenerator.generate_validate, ValidateGenCall.start]

theorem start_validate_shuffle (g : DataGenerator) (mi : Option Nat) :
    (g.generate_validate "validate" true mi).start =
      Except.ok ((npShuffle g.validate_random_state g.validate_audio_indexes).2,
        { g with
            validate_audio_indexes := (npShuffle g.validate_random_state g.validate_audio_indexes).2,
            validate_random_state := (npShuffle g.validate_random_state g.validate_audio_indexes).1 }) := by
  rcases hsh : npShuffle g.validate_random_state g.validate_audio_indexes with ⟨rs, sh⟩
  simp [DataGenerator.generate_validate, ValidateGenCall.start, hsh]

theorem start_validate_noshuffle (g : DataGenerator) (mi : Option Nat) :
    (g.generate_validate "validate" false mi).start =
      Except.ok (g.validate_audio_indexes, g) := by
  simp [DataGenerator.generate_validate, ValidateGenCall.start]

theorem run_of_start (c : ValidateGenCall) (idx : List Nat) (g2 : DataGenerator)
    (h : c.start = Except.ok (idx, g2)) :
    c.run = Except.ok (validateLoop c.g.batch_size c.max_iteration idx.length idx 0, g2) := by
  rw [ValidateGenCall.run, h]

theorem run_ok_inv (c : ValidateGenCall) (sels : List (List Nat)) (g2 : DataGenerator)
    (h : c.run = Except.ok (sels, g2)) :
    ∃ idx, c.start = Except.ok (idx, g2) ∧
      sels = validateLoop c.g.batch_size c.max_iteration idx.length idx 0 := by
  rw [ValidateGenCall.run] at h
  rcases hst : c.start with e | ⟨idx, g3⟩
  · rw [hst] at h
    exact absurd h (by simp)
  · rw [hst] at h
    injection h with h2
    injection h2 with hs hg
    subst hg
    exact ⟨idx, rfl, hs.symm⟩

theorem DataGenerator.core_eq_parts {g1 g2 : DataGenerator} (h : g1.core = g2.core) :
    g1.batch_size = g2.batch_size ∧ g1.audio_names = g2.audio_names ∧ g1.x = g2.x ∧
    g1.y = g2.y ∧ g1.train_audio_indexes = g2.train_audio_indexes ∧
    g1.validate_audio_indexes = g2.validate_audio_indexes ∧ g1.mean = g2.mean ∧
    g1.std = g2.std ∧ g1.validate_random_state = g2.validate_random_state := by
  simp only [DataGenerator.core, Prod.mk.injEq] at h
  exact h

theorem start_fields (c : ValidateGenCall) (idx : List Nat) (g2 : DataGenerator)
    (h : c.start = Except.ok (idx, g2)) :
    g2.mean = c.g.mean ∧ g2.std = c.g.std ∧ g2.x = c.g.x ∧ g2.y = c.g.y ∧
    g2.audio_names = c.g.audio_names ∧ g2.batch_size = c.g.batch_size := by
  rw [ValidateGenCall.start] at h
  split at h
  · split at h
    · rcases hsh : npShuffle c.g.validate_random_state c.g.train_audio_indexes with ⟨rs, sh⟩
      rw [hsh] at h
      injection h with h2
      injection h2 with h3 h4
      subst h4
      exact ⟨rfl, rfl, rfl, rfl, rfl, rfl⟩
    · injection h with h2
      injection h2 with h3 h4
      subst h4
      exact ⟨rfl, rfl, rfl, rfl, rfl, rfl⟩
  · split at h
    · split at h
      · rcases hsh : npShuffle c.g.validate_random_state c.g.validate_audio_indexes with ⟨rs, sh⟩
        rw [hsh] at h
        injection h with h2
        injection h2 with h3 h4
        subst h4
        exact ⟨rfl, rfl, rfl, rfl, rfl, rfl⟩
      · injection h with h2
        injection h2 with h3 h4
        subst h4
        exact ⟨rfl, rfl, rfl, rfl, rfl, rfl⟩
    · exact absurd h (by simp)

theorem TrainGen.next_congr (t1 t2 : TrainGen)
    (hidx : t1.idx = t2.idx) (hp : t1.pointer = t2.pointer)
    (hrs : t1.g.random_state = t2.g.random_state)
    (hbs : t1.g.batch_size = t2.g.batch_size) :
    t1.next.1.idx = t2.next.1.idx ∧ t1.next.1.pointer = t2.next.1.pointer ∧
    t1.next.1.g.random_state = t2.next.1.g.random_state ∧
    t1.next.1.g.batch_size = t2.next.1.g.batch_size ∧ t1.next.2 = t2.next.2 := by
  by_cases h : t1.idx.length ≤ t1.pointer
  · have h2 : t2.idx.length ≤ t2.pointer := by
      rw [← hidx, ← hp]
      exact h
    rw [TrainGen.next_of_ge t1 h, TrainGen.next_of_ge t2 h2]
    refine ⟨?_, ?_, ?_, ?_, ?_⟩ <;> simp [hidx, hrs, hbs]
  · have h2 : t2.pointer < t2.idx.length := by
      rw [← hidx, ← hp]
      exact Nat.lt_of_not_le h
    rw [TrainGen.next_of_lt t1 (Nat.lt_of_not_le h), TrainGen.next_of_lt t2 h2]
    refine ⟨?_, ?_, ?_, ?_, ?_⟩ <;> simp [hidx, hp, hrs, hbs]

theorem TrainGen.stateAfter_congr (t1 t2 : TrainGen)
    (hidx : t1.idx = t2.idx) (hp : t1.pointer = t2.pointer)
    (hrs : t1.g.random_state = t2.g.random_state)
    (hbs : t1.g.batch_size = t2.g.batch_size) :
    ∀ n, (t1.stateAfter n).idx = (t2.stateAfter n).idx ∧
      (t1.stateAfter n).pointer = (t2.stateAfter n).pointer ∧
      (t1.stateAfter n).g.random_state = (t2.stateAfter n).g.random_state ∧
      (t1.stateAfter n).g.batch_size = (t2.stateAfter n).g.batch_size ∧
      t1.selection n = t2.selection n := by
  intro n
  induction n with
  | zero => exact ⟨hidx, hp, hrs, hbs, (TrainGen.next_congr t1 t2 hidx hp hrs hbs).2.2.2.2⟩
  | succ m ih =>
      obtain ⟨h1, h2, h3, h4, _⟩ := ih
      have hn := TrainGen.next_congr _ _ h1 h2 h3 h4
      rw [TrainGen.stateAfter_succ, TrainGen.stateAfter_succ]
      have hsel := TrainGen.next_congr _ _ hn.1 hn.2.1 hn.2.2.1 hn.2.2.2.1
      exact ⟨hn.1, hn.2.1, hn.2.2.1, hn.2.2.2.1, hsel.2.2.2.2⟩

theorem generate_train_eq (g : DataGenerator) :
    g.generate_train =
      ⟨{ g with random_state := (npShuffle g.random_state g.train_audio_indexes).1 },
        (npShuffle g.random_state g.train_audio_indexes).2, 0⟩ := by
  rw [DataGenerator.generate_train]

theorem TrainGen.selection_pos (t : TrainGen) (hA : 0 < t.idx.length)
    (hB : 0 < t.g.batch_size) : ∀ n, 0 < (t.selection n).length := by
  intro n
  have hcore := TrainGen.stateAfter_core t n
  have hbs : (t.stateAfter n).g.batch_size = t.g.batch_size :=
    congrArg (fun c => c.1) hcore.1
  rw [TrainGen.selection]
  by_cases h : (t.stateAfter n).idx.length ≤ (t.stateAfter n).pointer
  · rw [TrainGen.next_of_ge _ h]
    simp only [List.length_take, npShuffle_length]
    rw [hcore.2, hbs]
    omega
  · rw [TrainGen.next_of_lt _ (Nat.lt_of_not_le h)]
    simp only [List.length_take, List.length_drop]
    rw [hbs]
    have := Nat.lt_of_not_le h
    omega



/-! ## Claim theorems -/

/-- C1: the claim says an absent (`None`) train or validation manifest
path defaults the corresponding IndexSet to the full `0..N-1` range with
construction succeeding, and that the test-mode generator (which passes
`None` for both manifests) is built over the full development dataset.
The code has no `None` branch: `get_audio_indexes_from_csv` immediately
calls `open(csv_file)`, so a `None` manifest raises a `TypeError` and
construction fails — for a `None` train manifest, a `None` validation
manifest (after a successfully resolved train manifest), and for
`TestDataGenerator.__init__`, which always passes `None` for both.
This contradicts the constructor docstring "if None then use all data
for training". -/
theorem C1_none_manifest_raises :
    (∀ (names : List String) (x : List Feature) (y : List Int) (bs : Nat)
        (v : Option (List (List String))) (seed : Nat) (cs : List ℚ → ℚ × ℚ),
      DataGenerator.init names x y bs none v seed cs =
        Except.error "TypeError: expected str, bytes or os.PathLike object, not NoneType") ∧
    (∀ cs : List ℚ → ℚ × ℚ,
      DataGenerator.init ["a0"] [[1]] [0] 2 (some [["w,x,y,a0"]]) none 7 cs =
        Except.error "TypeError: expected str, bytes or os.PathLike object, not NoneType") ∧
    (∀ (dn : List String) (dx : List Feature) (dy : List Int) (tn : List String)
        (tx : List Feature) (bs : Nat) (cs : List ℚ → ℚ × ℚ),
      TestDataGenerator.init dn dx dy tn tx bs cs =
        Except.error "TypeError: expected str, bytes or os.PathLike object, not NoneType") := by
  refine ⟨fun names x y bs v seed cs => rfl, fun cs => rfl, fun dn dx dy tn tx bs cs => ?_⟩
  rw [TestDataGenerator.init]
  rfl

/-- C2, counterexample: the claim locates the fatal "Invalid data_type!"
error at generator construction time, before any batch is requested.
`generate_validate` is a Python generator function: calling it with the
invalid selector "bogus" completes normally and returns a suspended
generator that records the arguments (first conjunct); the exception is
raised only when the first batch is requested (second and third
conjuncts). -/
theorem C2_counterexample :
    gEx.generate_validate "bogus" false none =
      ({ g := gEx, data_type := "bogus", shuffle := false, max_iteration := none } :
        ValidateGenCall) ∧
    (gEx.generate_validate "bogus" false none).start = Except.error "Invalid data_type!" ∧
    (gEx.generate_validate "bogus" false none).run = Except.error "Invalid data_type!" := by
  refine ⟨rfl, ?_, ?_⟩ <;> rfl

/-- C2, amended: for every split selector other than "train" and
"validate", the generator call itself returns normally, and the fatal
`Exception("Invalid data_type!")` is raised on the first pull — when the
first batch is requested — before any batch is yielded; there is no
recovery (the whole run is the error). -/
theorem C2_invalid_selector_fatal (g : DataGenerator) (dt : String) (sh : Bool)
    (mi : Option Nat) (h1 : dt ≠ "train") (h2 : dt ≠ "validate") :
    (g.generate_validate dt sh mi).start = Except.error "Invalid data_type!" ∧
    (g.generate_validate dt sh mi).run = Except.error "Invalid data_type!" := by
  have hst : (g.generate_validate dt sh mi).start = Except.error "Invalid data_type!" := by
    rw [ValidateGenCall.start]
    simp only [DataGenerator.generate_validate]
    rw [if_neg h1, if_neg h2]
  refine ⟨hst, ?_⟩
  rw [ValidateGenCall.run, hst]

/-- Witness for C2: the amended claim applied at the concrete state
`gEx` and the concrete invalid selector "bogus". -/
theorem C2_invalid_selector_fatal_witness :
    (gEx.generate_validate "bogus" false none).start = Except.error "Invalid data_type!" ∧
    (gEx.generate_validate "bogus" false none).run = Except.error "Invalid data_type!" :=
  C2_invalid_selector_fatal gEx "bogus" false none (by decide) (by decide)

/-- C3: for a non-empty frame sequence, the length-normalization step of
`calculate_features` returns the input unchanged when `L ≥ target_len`;
when `L < target_len` it returns the input followed by
`q = target_len // L − 1` further full copies and the first
`r = target_len % L` frames, so the output has exactly `target_len`
frames and its first `L` frames are the input. -/
theorem C3_lengthNormalize_spec (α : Type) (input : List α) (target_len : Nat)
    (hne : input ≠ []) :
    (target_len ≤ input.length → lengthNormalize input target_len = input) ∧
    (input.length < target_len →
      lengthNormalize input target_len =
        input ++ (List.replicate (target_len / input.length - 1) input).flatten ++
          input.take (target_len % input.length) ∧
      (lengthNormalize input target_len).length = target_len ∧
      (lengthNormalize input target_len).take input.length = input) := by
  constructor
  · intro h
    rw [lengthNormalize, if_neg (Nat.not_lt.mpr h)]
  · intro h
    have heq : lengthNormalize input target_len =
        input ++ (List.replicate (target_len / input.length - 1) input).flatten ++
          input.take (target_len % input.length) := by
      rw [lengthNormalize, if_pos h]
      show stackLoop input input (target_len / input.length - 1) ++
        input.take (target_len % input.length) = _
      rw [stackLoop_eq]
    refine ⟨heq, length_lengthNormalize input target_len hne h, ?_⟩
    rw [heq, List.append_assoc]
    exact List.take_left input _

/-- Witness for C3: the spec scenario — input length 3, target 7 gives
`input ++ input ++ input[0:1]`, of length 7. -/
theorem C3_lengthNormalize_spec_witness :
    lengthNormalize ([10, 20, 30] : List Nat) 7 = [10, 20, 30, 10, 20, 30, 10] ∧
    (lengthNormalize ([10, 20, 30] : List Nat) 7).length = 7 := by
  have h := (C3_lengthNormalize_spec Nat [10, 20, 30] 7 (by decide)).2 (by decide)
  exact ⟨h.1.trans (by decide), h.2.1⟩



/-- C7: manifest index resolution — for every manifest whose rows are
non-empty and whose first tab-delimited column has at least 4 comma
fields (the shape the code indexes without crashing), the resolution
reads each row, takes the 4th comma field (index 3) of the first column
as the filename, appends the first index matching it exactly in the
dataset filename sequence, and silently skips unmatched rows (the result
is `ok`, no error, with only matched rows contributing); the order is
manifest row order.  The second conjunct pins down "first matching
index by exact match" for `findIdx?`. -/
theorem C7_manifest_resolution (names : List String) (rows : List (List String))
    (hwf : ∀ li ∈ rows, li ≠ [] ∧ 4 ≤ (splitComma (li.headD "")).length) :
    get_audio_indexes_from_csv names (some rows) = Except.ok (rows.filterMap
      (fun li => names.findIdx? (fun s => s == (splitComma (li.headD "")).getD 3 ""))) ∧
    (∀ (name : String) (i : Nat), names.findIdx? (fun s => s == name) = some i →
      i < names.length ∧ names.getD i "" = name ∧ ∀ j, j < i → names.getD j "" ≠ name) :=
  ⟨resolveRows_ok names rows hwf, fun name i h => findIdx?_first names name i h⟩

/-- Witness for C7: a concrete manifest listing a4, a0, an unmatched
name (silently dropped), then a2 — resolved to `[4, 0, 2]`: manifest row
order, not numeric order. -/
theorem C7_manifest_resolution_witness :
    get_audio_indexes_from_csv ["a0", "a1", "a2", "a3", "a4"] (some rowsEx) =
      Except.ok [4, 0, 2] ∧
    ["a0", "a1", "a2", "a3", "a4"].getD 4 "" = "a4" := by
  have h := C7_manifest_resolution ["a0", "a1", "a2", "a3", "a4"] rowsEx (by decide)
  have hfm : rowsEx.filterMap
      (fun li => ["a0", "a1", "a2", "a3", "a4"].findIdx?
        (fun s => s == (splitComma (li.headD "")).getD 3 "")) = [4, 0, 2] := by decide
  exact ⟨h.1.trans (congrArg Except.ok hfm), (h.2 "a4" 4 (by decide)).2.1⟩

/-- C8: two train-mode generators whose states agree on the train
IndexSet contents, the batch size, and the train random stream (the
seed) produce identical index-selection sequences on every pull —
whatever their other fields (dataset arrays, labels, filenames, stats,
validation stream) hold.  The selection sequence is a deterministic
function of (seed, IndexSet, batch_size) alone; quantifying over all
`n` covers one full epoch plus the wrap and beyond. -/
theorem C8_train_determinism (g1 g2 : DataGenerator)
    (hidx : g1.train_audio_indexes = g2.train_audio_indexes)
    (hbs : g1.batch_size = g2.batch_size)
    (hrs : g1.random_state = g2.random_state) :
    ∀ n, (g1.generate_train).selection n = (g2.generate_train).selection n := by
  intro n
  have e1 := generate_train_eq g1
  have e2 := generate_train_eq g2
  have h := TrainGen.stateAfter_congr (g1.generate_train) (g2.generate_train)
    (by rw [e1, e2, hrs, hidx]) (by rw [e1, e2]) (by rw [e1, e2, hrs, hidx])
    (by rw [e1, e2, hbs]) n
  exact h.2.2.2.2

/-- Witness for C8: `gEx` and `gEx2` share train indexes, batch size
and train stream but differ in every other field; pull 5 selects the
same indexes. -/
theorem C8_train_determinism_witness :
    (gEx.generate_train).selection 5 = (gEx2.generate_train).selection 5 :=
  C8_train_determinism gEx gEx2 rfl rfl rfl 5



/-- C10: in train mode, the batches of one epoch — here the first
`ceil(A/B)` pulls from a freshly started generator, between the initial
shuffle and the first pointer reset — concatenate, in pull order, to
exactly the shuffled index list; and that list is a permutation of the
stored train IndexSet, so every train index is selected exactly once
per epoch. -/
theorem C10_epoch_partition (g : DataGenerator) (hB : 0 < g.batch_size)
    (hA : 0 < g.train_audio_indexes.length) :
    ((List.range ((g.train_audio_indexes.length - 1) / g.batch_size + 1)).map
        ((g.generate_train).selection)).flatten = (g.generate_train).idx ∧
    ((g.generate_train).idx).Perm g.train_audio_indexes := by
  have e0 := generate_train_eq g
  have hp0 : (g.generate_train).pointer = 0 := by rw [e0]
  have hlen : (g.generate_train).idx.length = g.train_audio_indexes.length := by
    rw [e0]
    exact npShuffle_length _ _
  have hbs : (g.generate_train).g.batch_size = g.batch_size := by rw [e0]
  have hsel : ∀ j ∈ List.range ((g.train_audio_indexes.length - 1) / g.batch_size + 1),
      (g.generate_train).selection j =
        ((g.generate_train).idx.drop (j * g.batch_size)).take g.batch_size := by
    intro j hj
    rw [List.mem_range, Nat.lt_succ_iff] at hj
    have hjB : j * g.batch_size < g.train_audio_indexes.length := by
      have h1 : j * g.batch_size ≤
          (g.train_audio_indexes.length - 1) / g.batch_size * g.batch_size :=
        Nat.mul_le_mul_right _ hj
      have h2 := Nat.div_mul_le_self (g.train_audio_indexes.length - 1) g.batch_size
      omega
    have h3 := TrainGen.selection_of_noReset (g.generate_train) hp0 j
      (by rw [hbs, hlen]; exact hjB)
    rw [h3, hbs]
  constructor
  · rw [List.map_congr_left hsel, flatten_chunks]
    apply List.take_of_length_le
    rw [hlen]
    have hdm := Nat.div_add_mod (g.train_audio_indexes.length - 1) g.batch_size
    have hmod : (g.train_audio_indexes.length - 1) % g.batch_size < g.batch_size :=
      Nat.mod_lt _ hB
    rw [Nat.succ_mul, Nat.mul_comm]
    omega
  · rw [e0]
    exact npShuffle_perm _ _



/-- Witness for C10: the epoch partition at the concrete 10-item,
batch-4 state `gEx`. -/
theorem C10_epoch_partition_witness :
    ((List.range ((gEx.train_audio_indexes.length - 1) / gEx.batch_size + 1)).map
        ((gEx.generate_train).selection)).flatten = (gEx.generate_train).idx ∧
    ((gEx.generate_train).idx).Perm gEx.train_audio_indexes :=
  C10_epoch_partition gEx (by decide) (by decide)

set_option maxHeartbeats 2000000 in
/-- C4: the train-mode pull scenario — over a 10-item IndexSet with
batch size 4 (any seed), the first three pulls select 4, 4 and 2 indexes
(the boundary slice: the pointer is 8 < 10 but 8+4 > 10), the pointer
then stands at 12, and the fourth pull resets it to 0, reshuffles the
full local index list in place (the new list is the shuffle of the old,
a permutation of it), yields the first 4 items of the fresh order, and
leaves the pointer at 4.  More generally, when the batch size does not
divide the IndexSet size, the undersized boundary batch occurs exactly
once per epoch; and the generator never terminates on its own — every
pull yields a (non-empty) batch. -/
theorem C4_train_pull_scenario :
    (∀ g : DataGenerator, g.train_audio_indexes.length = 10 → g.batch_size = 4 →
      ((g.generate_train).selection 0).length = 4 ∧
      ((g.generate_train).selection 1).length = 4 ∧
      ((g.generate_train).selection 2).length = 2 ∧
      ((g.generate_train).stateAfter 3).pointer = 12 ∧
      (g.generate_train).selection 3 =
        ((npShuffle ((g.generate_train).stateAfter 3).g.random_state
            ((g.generate_train).stateAfter 3).idx).2).take 4 ∧
      ((g.generate_train).stateAfter 4).idx =
        (npShuffle ((g.generate_train).stateAfter 3).g.random_state
          ((g.generate_train).stateAfter 3).idx).2 ∧
      (((g.generate_train).stateAfter 4).idx).Perm ((g.generate_train).stateAfter 3).idx ∧
      ((g.generate_train).stateAfter 4).pointer = 4 ∧
      ((g.generate_train).selection 3).length = 4) ∧
    (∀ g : DataGenerator, 0 < g.batch_size →
      ¬ g.batch_size ∣ g.train_audio_indexes.length →
      ((List.range ((g.train_audio_indexes.length - 1) / g.batch_size + 1)).map
          ((g.generate_train).selection)).countP
        (fun b => decide (b.length < g.batch_size)) = 1) ∧
    (∀ (g : DataGenerator) (n : Nat), 0 < g.batch_size →
      0 < g.train_audio_indexes.length →
      0 < ((g.generate_train).selection n).length) := by
  refine ⟨?_, ?_, ?_⟩
  · intro g h10 h4
    have e0 := generate_train_eq g
    have hp0 : (g.generate_train).pointer = 0 := by rw [e0]
    have hlen : (g.generate_train).idx.length = 10 := by
      rw [e0]
      exact (npShuffle_length _ _).trans h10
    have hbs : (g.generate_train).g.batch_size = 4 := by
      rw [e0]
      exact h4
    have hsel : ∀ j, j * 4 < 10 → (g.generate_train).selection j =
        ((g.generate_train).idx.drop (j * 4)).take 4 := by
      intro j hj
      have h3 := TrainGen.selection_of_noReset (g.generate_train) hp0 j
        (by rw [hbs, hlen]; exact hj)
      rw [h3, hbs]
    have hst3 : (g.generate_train).stateAfter 3 =
        ⟨(g.generate_train).g, (g.generate_train).idx, 12⟩ := by
      have h := TrainGen.stateAfter_of_noReset (g.generate_train) hp0 3
        (by intro i hi; rw [hbs, hlen]; omega)
      rw [h, hbs]
    have hge : ((g.generate_train).stateAfter 3).idx.length ≤
        ((g.generate_train).stateAfter 3).pointer := by
      rw [hst3]
      show (g.generate_train).idx.length ≤ 12
      rw [hlen]
      omega
    have hnx := TrainGen.next_of_ge ((g.generate_train).stateAfter 3) hge
    have hbs3 : ((g.generate_train).stateAfter 3).g.batch_size = 4 := by
      rw [hst3]
      exact hbs
    have hst4 : (g.generate_train).stateAfter 4 =
        ((g.generate_train).stateAfter 3).next.1 :=
      TrainGen.stateAfter_succ (g.generate_train) 3
    have hidx3 : ((g.generate_train).stateAfter 3).idx = (g.generate_train).idx := by
      rw [hst3]
    refine ⟨?_, ?_, ?_, ?_, ?_, ?_, ?_, ?_, ?_⟩
    · rw [hsel 0 (by omega)]
      simp [List.length_take, List.length_drop, hlen]
    · rw [hsel 1 (by omega)]
      simp [List.length_take, List.length_drop, hlen]
    · rw [hsel 2 (by omega)]
      simp [List.length_take, List.length_drop, hlen]
    · rw [hst3]
    · rw [TrainGen.selection_eq, hnx, hbs3]
    · rw [hst4, hnx]
    · rw [hst4, hnx]
      exact npShuffle_perm _ _
    · rw [hst4, hnx]
      exact hbs3
    · rw [TrainGen.selection_eq, hnx, hbs3, List.length_take, npShuffle_length,
        hidx3, hlen]
      decide
  · intro g hB hnd
    have hA : 0 < g.train_audio_indexes.length := by
      rcases Nat.eq_zero_or_pos g.train_audio_indexes.length with h0 | h
      · exact absurd (by rw [h0]; exact dvd_zero _) hnd
      · exact h
    have e0 := generate_train_eq g
    have hp0 : (g.generate_train).pointer = 0 := by rw [e0]
    have hlen : (g.generate_train).idx.length = g.train_audio_indexes.length := by
      rw [e0]
      exact npShuffle_length _ _
    have hbs : (g.generate_train).g.batch_size = g.batch_size := by rw [e0]
    have hsel : ∀ j ∈ List.range ((g.train_audio_indexes.length - 1) / g.batch_size + 1),
        (g.generate_train).selection j =
          ((g.generate_train).idx.drop (j * g.batch_size)).take g.batch_size := by
      intro j hj
      rw [List.mem_range, Nat.lt_succ_iff] at hj
      have hjB : j * g.batch_size < g.train_audio_indexes.length := by
        have h1 : j * g.batch_size ≤
            (g.train_audio_indexes.length - 1) / g.batch_size * g.batch_size :=
          Nat.mul_le_mul_right _ hj
        have h2 := Nat.div_mul_le_self (g.train_audio_indexes.length - 1) g.batch_size
        omega
      have h3 := TrainGen.selection_of_noReset (g.generate_train) hp0 j
        (by rw [hbs, hlen]; exact hjB)
      rw [h3, hbs]
    rw [List.map_congr_left hsel, List.range_succ, List.map_append, List.countP_append]
    have hdm := Nat.div_add_mod (g.train_audio_indexes.length - 1) g.batch_size
    have hmod : (g.train_audio_indexes.length - 1) % g.batch_size < g.batch_size :=
      Nat.mod_lt _ hB
    have h0 : ((List.range ((g.train_audio_indexes.length - 1) / g.batch_size)).map
        (fun j => ((g.generate_train).idx.drop (j * g.batch_size)).take g.batch_size)).countP
        (fun b => decide (b.length < g.batch_size)) = 0 := by
      rw [List.countP_eq_zero]
      intro b hb
      rw [List.mem_map] at hb
      obtain ⟨j, hj, hbj⟩ := hb
      rw [List.mem_range] at hj
      rw [← hbj]
      simp only [decide_eq_true_eq]
      rw [List.length_take, List.length_drop, hlen]
      have h1 : (j + 1) * g.batch_size ≤
          (g.train_audio_indexes.length - 1) / g.batch_size * g.batch_size :=
        Nat.mul_le_mul_right _ hj
      rw [Nat.succ_mul] at h1
      have h2 := Nat.div_mul_le_self (g.train_audio_indexes.length - 1) g.batch_size
      omega
    rw [h0]
    have hq : g.train_audio_indexes.length -
        (g.train_audio_indexes.length - 1) / g.batch_size * g.batch_size =
        (g.train_audio_indexes.length - 1) % g.batch_size + 1 := by
      rw [Nat.mul_comm]
      omega
    have hlt : (g.train_audio_indexes.length - 1) % g.batch_size + 1 < g.batch_size := by
      rcases Nat.lt_or_ge ((g.train_audio_indexes.length - 1) % g.batch_size + 1)
        g.batch_size with h | h
      · exact h
      · exfalso
        apply hnd
        refine ⟨(g.train_audio_indexes.length - 1) / g.batch_size + 1, ?_⟩
        rw [Nat.mul_add, Nat.mul_one]
        omega
    simp only [List.map_cons, List.map_nil, List.countP_cons, List.countP_nil]
    rw [List.length_take, List.length_drop, hlen]
    have hchunk : min g.batch_size (g.train_audio_indexes.length -
        (g.train_audio_indexes.length - 1) / g.batch_size * g.batch_size) <
        g.batch_size := by
      rw [hq]
      omega
    simp [hchunk]
  · intro g n hB hA
    have e0 := generate_train_eq g
    have hlen : (g.generate_train).idx.length = g.train_audio_indexes.length := by
      rw [e0]
      exact npShuffle_length _ _
    have hbs : (g.generate_train).g.batch_size = g.batch_size := by rw [e0]
    exact TrainGen.selection_pos (g.generate_train)
      (by rw [hlen]; exact hA) (by rw [hbs]; exact hB) n

/-- Witness for C4: the scenario at the concrete state `gEx` (10 train
items, batch size 4). -/
theorem C4_train_pull_scenario_witness :
    ((gEx.generate_train).selection 2).length = 2 ∧
    ((gEx.generate_train).stateAfter 4).pointer = 4 ∧
    ((List.range 3).map ((gEx.generate_train).selection)).countP
      (fun b => decide (b.length < gEx.batch_size)) = 1 ∧
    0 < ((gEx.generate_train).selection 7).length := by
  have hA := C4_train_pull_scenario.1 gEx (by decide) (by decide)
  have hB := C4_train_pull_scenario.2.1 gEx (by decide) (by decide)
  have hC := C4_train_pull_scenario.2.2 gEx 7 (by decide) (by decide)
  exact ⟨hA.2.2.1, hA.2.2.2.2.2.2.2.1, hB, hC⟩



/-- C5: a validate-mode generator over a selected IndexSet of size
`A > 0` with batch size `B > 0` and no `max_iteration` cap terminates
after yielding exactly `ceil(A/B) = (A+B-1)/B` batches, the last of size
`A − B*(ceil(A/B)−1)` (still yielded); with a cap `m`, at most `m`
batches are yielded. -/
theorem C5_validate_termination (g : DataGenerator) (dt : String) (sh : Bool)
    (idx : List Nat) (g2 : DataGenerator) (hB : 0 < g.batch_size)
    (hst : (g.generate_validate dt sh none).start = Except.ok (idx, g2))
    (hA : 0 < idx.length) :
    (g.generate_validate dt sh none).run =
      Except.ok (validateLoop g.batch_size none idx.length idx 0, g2) ∧
    (validateLoop g.batch_size none idx.length idx 0).length =
      (idx.length + g.batch_size - 1) / g.batch_size ∧
    ((validateLoop g.batch_size none idx.length idx 0).getLast?).map List.length =
      some (idx.length -
        g.batch_size * ((idx.length + g.batch_size - 1) / g.batch_size - 1)) ∧
    (∀ (m : Nat) (sels2 : List (List Nat)) (g3 : DataGenerator),
      (g.generate_validate dt sh (some m)).run = Except.ok (sels2, g3) →
      sels2.length ≤ m) := by
  have hne : idx ≠ [] := by
    intro h
    rw [h] at hA
    simp at hA
  have hceil : (idx.length + g.batch_size - 1) / g.batch_size =
      (idx.length - 1) / g.batch_size + 1 := by
    have h1 : idx.length + g.batch_size - 1 = (idx.length - 1) + g.batch_size := by omega
    rw [h1, Nat.add_div_right _ hB]
  refine ⟨run_of_start (g.generate_validate dt sh none) idx g2 hst, ?_, ?_, ?_⟩
  · rw [validateLoop_count_none g.batch_size hB idx.length idx 0 (le_refl _), hceil]
    simp [hne]
  · rw [validateLoop_getLast_none g.batch_size hB idx.length idx 0 (le_refl _) hne]
    rw [hceil]
    simp only [Nat.add_sub_cancel, Option.map_some']
    rw [Option.some.injEq, List.length_take, List.length_drop]
    have hdm := Nat.div_add_mod (idx.length - 1) g.batch_size
    have hmod : (idx.length - 1) % g.batch_size < g.batch_size := Nat.mod_lt _ hB
    omega
  · intro m sels2 g3 hrun
    have hst2 : (g.generate_validate dt sh (some m)).start = Except.ok (idx, g2) := hst
    obtain ⟨idx2, hst3, hsels⟩ := run_ok_inv _ _ _ hrun
    rw [hst2] at hst3
    injection hst3 with h4
    injection h4 with h5 h6
    subst h5
    have hmi : (g.generate_validate dt sh (some m)).max_iteration = some m := rfl
    have hbs2 : (g.generate_validate dt sh (some m)).g.batch_size = g.batch_size := rfl
    rw [hsels, hmi, hbs2]
    have h7 := validateLoop_count_cap g.batch_size m idx.length idx 0 (Nat.zero_le m)
    omega

/-- Witness for C5: the concrete state `gEx3` — validate split of 3
items, batch size 2 — yields 2 batches, the last of size 1. -/
theorem C5_validate_termination_witness :
    (validateLoop gEx3.batch_size none 3 [1, 3, 4] 0).length = 2 ∧
    ((validateLoop gEx3.batch_size none 3 [1, 3, 4] 0).getLast?).map List.length =
      some 1 := by
  have h := C5_validate_termination gEx3 "validate" false [1, 3, 4] gEx3
    (by decide) (start_validate_noshuffle gEx3 none) (by decide)
  exact ⟨h.2.1, h.2.2.1⟩

/-- C9: `generate_validate` with `shuffle = true` reorders the stored
index list of the selected split in place — afterwards the stored list
is the shuffled list (a permutation, same multiset, of the original),
the yielded iteration runs over that new stored order, and the other
split is untouched — whereas `generate_train` shuffles a private copy:
after any number of pulls both stored index lists are unchanged. -/
theorem C9_inplace_vs_copy_shuffle :
    (∀ (g : DataGenerator) (mi : Option Nat) (sels : List (List Nat)) (g2 : DataGenerator),
      (g.generate_validate "train" true mi).run = Except.ok (sels, g2) →
      g2.train_audio_indexes = (npShuffle g.validate_random_state g.train_audio_indexes).2 ∧
      g2.train_audio_indexes.Perm g.train_audio_indexes ∧
      g2.validate_audio_indexes = g.validate_audio_indexes ∧
      sels = validateLoop g.batch_size mi
        g2.train_audio_indexes.length g2.train_audio_indexes 0) ∧
    (∀ (g : DataGenerator) (mi : Option Nat) (sels : List (List Nat)) (g2 : DataGenerator),
      (g.generate_validate "validate" true mi).run = Except.ok (sels, g2) →
      g2.validate_audio_indexes =
        (npShuffle g.validate_random_state g.validate_audio_indexes).2 ∧
      g2.validate_audio_indexes.Perm g.validate_audio_indexes ∧
      g2.train_audio_indexes = g.train_audio_indexes ∧
      sels = validateLoop g.batch_size mi
        g2.validate_audio_indexes.length g2.validate_audio_indexes 0) ∧
    (∀ (g : DataGenerator) (n : Nat),
      ((g.generate_train).stateAfter n).g.train_audio_indexes = g.train_audio_indexes ∧
      ((g.generate_train).stateAfter n).g.validate_audio_indexes =
        g.validate_audio_indexes) := by
  refine ⟨?_, ?_, ?_⟩
  · intro g mi sels g2 hrun
    obtain ⟨idx, hst, hsels⟩ := run_ok_inv _ _ _ hrun
    rw [start_train_shuffle g mi] at hst
    injection hst with h4
    injection h4 with h5 h6
    subst h6
    refine ⟨rfl, npShuffle_perm _ _, rfl, ?_⟩
    rw [hsels, ← h5]
    rfl
  · intro g mi sels g2 hrun
    obtain ⟨idx, hst, hsels⟩ := run_ok_inv _ _ _ hrun
    rw [start_validate_shuffle g mi] at hst
    injection hst with h4
    injection h4 with h5 h6
    subst h6
    refine ⟨rfl, npShuffle_perm _ _, rfl, ?_⟩
    rw [hsels, ← h5]
    rfl
  · intro g n
    have hc := (TrainGen.stateAfter_core (g.generate_train) n).1
    obtain ⟨_, _, _, _, h5, h6, _, _, _⟩ := DataGenerator.core_eq_parts hc
    have e0 := generate_train_eq g
    constructor
    · rw [h5, e0]
    · rw [h6, e0]

/-- Witness for C9: running a shuffling validate pass over the train
split of the concrete state `gEx` leaves the stored train list rotated
in place (to `[5,6,7,8,9,0,1,2,3,4]`, the state `g9Ex`) and the yielded
selections iterate the new stored order. -/
theorem C9_inplace_vs_copy_shuffle_witness :
    g9Ex.train_audio_indexes =
      (npShuffle gEx.validate_random_state gEx.train_audio_indexes).2 ∧
    g9Ex.train_audio_indexes.Perm gEx.train_audio_indexes ∧
    g9Ex.validate_audio_indexes = gEx.validate_audio_indexes ∧
    [[5, 6, 7, 8], [9, 0, 1, 2], [3, 4]] = validateLoop gEx.batch_size none
      g9Ex.train_audio_indexes.length g9Ex.train_audio_indexes 0 :=
  C9_inplace_vs_copy_shuffle.1 gEx none [[5, 6, 7, 8], [9, 0, 1, 2], [3, 4]] g9Ex rfl



/-- C6: the scalar mean and std are computed exactly once, at
construction, from the feature values at the train IndexSet positions
only — the validation manifest contributes nothing to them — and every
batch of every mode is normalized with those same unmodified statistics:
train pulls never change them and scale each batch with them; a
validate-mode run (over either split, shuffled or not, capped or not)
leaves them unchanged and scales each batch with them; and test-mode
batches over a separate test dataset are scaled with the same
development-train statistics. -/
theorem C6_scalar_stats_once (names : List String) (x : List Feature) (y : List Int)
    (bs : Nat) (tr v : Option (List (List String))) (seed : Nat)
    (cs : List ℚ → ℚ × ℚ) (g : DataGenerator)
    (hinit : DataGenerator.init names x y bs tr v seed cs = Except.ok g) :
    (g.mean, g.std) = cs (gatherF g.x g.train_audio_indexes).flatten ∧
    (∀ (v2 : Option (List (List String))) (g2 : DataGenerator),
      DataGenerator.init names x y bs tr v2 seed cs = Except.ok g2 →
      g2.mean = g.mean ∧ g2.std = g.std) ∧
    (∀ n : Nat,
      ((g.generate_train).stateAfter n).g.mean = g.mean ∧
      ((g.generate_train).stateAfter n).g.std = g.std ∧
      ((g.generate_train).batch n).1 =
        (gatherF g.x ((g.generate_train).selection n)).map
          (fun f => scale f g.mean g.std)) ∧
    (∀ (dt : String) (sh : Bool) (mi : Option Nat) (sels : List (List Nat))
        (g2 : DataGenerator),
      (g.generate_validate dt sh mi).run = Except.ok (sels, g2) →
      g2.mean = g.mean ∧ g2.std = g.std ∧
      ∀ sel : List Nat, (validateBatchOf g2 sel).1 =
        (gatherF g.x sel).map (fun f => scale f g.mean g.std)) ∧
    (∀ (tn : List String) (tx : List Feature),
      TestDataGenerator.generate_test ⟨g, tn, tx⟩ =
        (validateLoop g.batch_size none tx.length (List.range tx.length) 0).map
          (fun sel => ((gatherF tx sel).map (fun f => scale f g.mean g.std),
            gatherS tn sel))) := by
  obtain ⟨ti, vi, hti, hvi, hg⟩ := (init_ok_iff names x y bs tr v seed cs g).mp hinit
  refine ⟨?_, ?_, ?_, ?_, ?_⟩
  · rw [hg]
  · intro v2 g2 hinit2
    obtain ⟨ti2, vi2, hti2, hvi2, hg2⟩ := (init_ok_iff names x y bs tr v2 seed cs g2).mp hinit2
    rw [hti] at hti2
    injection hti2 with h5
    subst h5
    rw [hg, hg2]
    exact ⟨rfl, rfl⟩
  · intro n
    have hc := (TrainGen.stateAfter_core (g.generate_train) n).1
    obtain ⟨hbs2, hnames2, hx2, hy2, htr2, hv2, hmean2, hstd2, hvrs2⟩ :=
      DataGenerator.core_eq_parts hc
    have e0 := generate_train_eq g
    have hmean3 : ((g.generate_train).stateAfter n).g.mean = g.mean := by
      rw [hmean2, e0]
    have hstd3 : ((g.generate_train).stateAfter n).g.std = g.std := by
      rw [hstd2, e0]
    have hx3 : ((g.generate_train).stateAfter n).g.x = g.x := by
      rw [hx2, e0]
    refine ⟨hmean3, hstd3, ?_⟩
    rw [TrainGen.batch]
    show (gatherF ((g.generate_train).stateAfter n).g.x ((g.generate_train).selection n)).map
        ((g.generate_train).stateAfter n).g.transform = _
    rw [hx3]
    exact List.map_congr_left
      (fun a _ => by rw [DataGenerator.transform, hmean3, hstd3])
  · intro dt sh mi sels g2 hrun
    obtain ⟨idx, hst, hsels⟩ := run_ok_inv _ _ _ hrun
    have hf := start_fields _ _ _ hst
    refine ⟨hf.1, hf.2.1, ?_⟩
    intro sel
    rw [validateBatchOf]
    show (gatherF g2.x sel).map g2.transform = _
    rw [hf.2.2.1]
    show (gatherF g.x sel).map g2.transform = _
    exact List.map_congr_left
      (fun a _ => by rw [DataGenerator.transform, hf.1, hf.2.1]; rfl)
  · intro tn tx
    rw [TestDataGenerator.generate_test]
    show (validateLoop g.batch_size none (List.range tx.length).length
        (List.range tx.length) 0).map
      (fun sel => ((gatherF tx sel).map (DataGenerator.transform g), gatherS tn sel)) = _
    rw [List.length_range]
    exact List.map_congr_left (fun sel _ => rfl)



/-- Witness for C6: a concrete construction from a two-item dataset —
the stats come from the train position `[1]` only, and survive two
train pulls unchanged. -/
theorem C6_scalar_stats_once_witness :
    (g6Ex.mean, g6Ex.std) = csEx (gatherF g6Ex.x g6Ex.train_audio_indexes).flatten ∧
    ((g6Ex.generate_train).stateAfter 2).g.mean = g6Ex.mean := by
  have h := C6_scalar_stats_once ["a0", "a1"] [[1], [2]] [0, 1] 2
    (some [["w,x,y,a1"]]) (some [["w,x,y,a0"]]) 3 csEx g6Ex rfl
  exact ⟨h.1, (h.2.2.1 2).1⟩


end SER
